import Mathlib

/-!
Verification of the two command-line git utilities in this repository:
a commit-message generator driven by a chat-completion API
(`git_commit_message_generator.py`) and a branch squash-merge
preview/delete tool (`preview-branch-then-delete.py`).

The scripts are shallowly embedded: every external effect (a
`subprocess.run` invocation, the network request, the interactive
prompt) is replaced by an explicit outcome supplied in a "world"
record, and each Python function becomes a Lean function from those
outcomes to its Python return value, with uncaught Python exceptions
made explicit in an `Except` result.  The `main` drivers additionally
return the ordered list of externally visible git/network operations
they invoked, so that claims about "no commit happened" or "the reset
always runs" are statements about that trace.
-/

namespace Scripts

/-- Outcome of one `subprocess.run` invocation: either the child process
completed with a return code and captured stdout/stderr, or the
executable could not be launched (Python raises `FileNotFoundError`
before any process runs). -/
inductive RunOutcome where
  | completed (returncode : Nat) (stdout stderr : String)
  | fileNotFound
deriving DecidableEq

/-- The Python exceptions that can escape the embedded functions:
`FileNotFoundError` (git executable absent), `EOFError` (from
`input()`), and `SystemExit code` (raised by `sys.exit(code)`). -/
inductive PyExc where
  | fileNotFound
  | eofError
  | systemExit (code : Nat)
deriving DecidableEq

/-- Result of running a script top to bottom: the process exits with a
code (normal completion is code 0; an uncaught `SystemExit c` also
terminates the interpreter with code `c`), or a non-`SystemExit`
exception escapes `main` (traceback, exit code 1 from the interpreter,
recorded separately so the two terminations stay distinguishable). -/
inductive MainResult where
  | exit (code : Nat)
  | exc (e : PyExc)
deriving DecidableEq

/-- Externally visible operations a run can invoke, in order.  Read-only
git queries are not recorded; the recorded ones are the single network
request (carrying the assembled user prompt), the mutating
`git commit`, and the three git operations of the preview tool. -/
inductive Event where
  | networkCall (system_content user_content : String)
  | commitCall (msg : String)
  | mergeSquash
  | reset
  | branchDelete
deriving DecidableEq

/-- Converts an exception escaping `main` into the process result:
`SystemExit c` terminates the interpreter with exit code `c`, anything
else escapes as a traceback. -/
def propagate (e : PyExc) : MainResult :=
  match e with
  | .systemExit c => .exit c
  | e => .exc e

/-! ### Python string primitives

The scripts use `str.strip()`, `str.split("\n")` and `str.lower()` on
git/stdin output.  They are embedded here as structurally recursive
functions over the character list, so that concrete runs compute; the
whitespace set is the ASCII part of the Python definition, which covers
every string these tools strip. -/

/-- The ASCII whitespace characters recognized by Python `str.strip()`. -/
def is_py_space (c : Char) : Bool :=
  c = ' ' || c = '\t' || c = '\n' || c = '\r' || c = '\x0b' || c = '\x0c'

/-- Embeds Python `str.strip()`: drops leading and trailing whitespace. -/
def py_strip (s : String) : String :=
  ⟨((s.data.dropWhile is_py_space).reverse.dropWhile is_py_space).reverse⟩

/-- Character-list worker for Python `str.split("\n")`: splits at every
newline and keeps empty parts, so the empty list yields one empty part,
exactly as in Python. -/
def split_nl_chars : List Char → List (List Char)
  | [] => [[]]
  | c :: rest =>
      let r := split_nl_chars rest
      if c = '\n' then [] :: r
      else
        match r with
        | [] => [[c]]
        | h :: t => (c :: h) :: t

/-- Embeds Python `str.split("\n")`. -/
def py_split_nl (s : String) : List String :=
  (split_nl_chars s.data).map String.mk

/-- Embeds Python `str.lower()` (the confirmation answers are ASCII). -/
def py_lower (s : String) : String :=
  ⟨s.data.map Char.toLower⟩

/-! ## preview-branch-then-delete.py -/

/-- Command run by `preview_branch`:
`git merge --squash --no-commit --strategy-option theirs <branch>`. -/
def preview_cmd (branch_name : String) : List String :=
  ["git", "merge", "--squash", "--no-commit", "--strategy-option", "theirs", branch_name]

/-- Command run by `delete_branch`: `git branch -D <branch>`. -/
def delete_cmd (branch_name : String) : List String :=
  ["git", "branch", "-D", branch_name]

/-- Command run by `git_reset_hard`: `git reset --hard`. -/
def reset_cmd : List String :=
  ["git", "reset", "--hard"]

/-- Embeds `run_git_command(command, error_message, expected_return_codes)`:
`FileNotFoundError` from `subprocess.run` is caught and turned into
`sys.exit(1)`; a return code outside `expected_return_codes` prints the
diagnostics and calls `sys.exit(1)`; otherwise the completed result is
returned for inspection. -/
def run_git_command (o : RunOutcome) (expected_return_codes : List Nat) :
    Except PyExc (Nat × String × String) :=
  match o with
  | .fileNotFound => .error (.systemExit 1)
  | .completed rc out err =>
      if rc ∈ expected_return_codes then .ok (rc, out, err)
      else .error (.systemExit 1)

/-- Embeds `preview_branch`: runs the squash-merge preview accepting
return codes 0 (clean) and 1 (conflicts); the conflict-message check on
stdout only affects printing, not control flow. -/
def preview_branch (o : RunOutcome) : Except PyExc Unit :=
  (run_git_command o [0, 1]).map fun _ => ()

/-- Embeds `git_reset_hard`: runs `git reset --hard` accepting only
return code 0. -/
def git_reset_hard (o : RunOutcome) : Except PyExc Unit :=
  (run_git_command o [0]).map fun _ => ()

/-- Embeds `delete_branch`: runs `git branch -D` accepting only return
code 0. -/
def delete_branch (o : RunOutcome) : Except PyExc Unit :=
  (run_git_command o [0]).map fun _ => ()

/-- The outcomes of the external interactions of one invocation of the
preview tool: the squash-merge attempt, the interactive confirmation
(`none` models `input()` raising, e.g. `EOFError` on closed stdin), the
`git reset --hard`, and the `git branch -D`. -/
structure PreviewWorld where
  mergeOutcome : RunOutcome
  confirmInput : Option String
  resetOutcome : RunOutcome
  deleteOutcome : RunOutcome

/-- Embeds `main()` of `preview-branch-then-delete.py`.  The `try`
block previews and prompts; the `finally` block always runs
`git_reset_hard` (an exception raised there replaces any in-flight
exception); the force-delete runs after the `try`/`finally`, only when
the operator answered `y` (lowercased). -/
def pmain (w : PreviewWorld) : MainResult × List Event :=
  match preview_branch w.mergeOutcome with
  | .error e =>
      match git_reset_hard w.resetOutcome with
      | .error e2 => (propagate e2, [.mergeSquash, .reset])
      | .ok _ => (propagate e, [.mergeSquash, .reset])
  | .ok _ =>
      match w.confirmInput with
      | none =>
          match git_reset_hard w.resetOutcome with
          | .error e2 => (propagate e2, [.mergeSquash, .reset])
          | .ok _ => (.exc .eofError, [.mergeSquash, .reset])
      | some answer =>
          let delete_confirmed := py_lower answer == "y"
          match git_reset_hard w.resetOutcome with
          | .error e2 => (propagate e2, [.mergeSquash, .reset])
          | .ok _ =>
              if delete_confirmed then
                match delete_branch w.deleteOutcome with
                | .error e3 => (propagate e3, [.mergeSquash, .reset, .branchDelete])
                | .ok _ => (.exit 0, [.mergeSquash, .reset, .branchDelete])
              else (.exit 0, [.mergeSquash, .reset])

/-- C3: on every invocation of the preview tool — deletion confirmed,
cancelled, or the preview/confirmation step raising — the reset step
runs (a `reset` event is in the trace), and the force-delete of the
branch runs only when the operator answered `y` and only after the
reset, the full trace then being merge, reset, delete in that order. -/
theorem preview_always_resets_and_gates_delete (w : PreviewWorld) :
    Event.reset ∈ (pmain w).2 ∧
    (Event.branchDelete ∈ (pmain w).2 →
      (∃ s, w.confirmInput = some s ∧ py_lower s = "y") ∧
      (pmain w).2 = [Event.mergeSquash, Event.reset, Event.branchDelete]) := by
  rcases w with ⟨mo, ci, ro, dl⟩
  simp only [pmain]
  rcases h : preview_branch mo with e | u
  · rcases h2 : git_reset_hard ro with e2 | u2 <;> simp
  · rcases ci with _ | answer
    · rcases h2 : git_reset_hard ro with e2 | u2 <;> simp
    · rcases h2 : git_reset_hard ro with e2 | u2
      · simp
      · simp only []
        by_cases hy : py_lower answer == "y"
        · simp only [hy, if_true]
          rcases h3 : delete_branch dl with e3 | u3 <;>
            simp [List.mem_cons, eq_of_beq hy]
        · simp [hy]

/-- An invocation in which every git command succeeds and the operator
confirms the deletion with `y`. -/
def confirm_world : PreviewWorld :=
  ⟨.completed 0 "" "", some "y", .completed 0 "" "", .completed 0 "" ""⟩

/-- Witness for C3 at the concrete confirmed-deletion invocation. -/
theorem preview_always_resets_and_gates_delete_witness :
    (∃ s, confirm_world.confirmInput = some s ∧ py_lower s = "y") ∧
    (pmain confirm_world).2 = [Event.mergeSquash, Event.reset, Event.branchDelete] :=
  (preview_always_resets_and_gates_delete confirm_world).2 (by decide)

/-! ## git_commit_message_generator.py -/

/-- Command run by `is_git_repository`: `git rev-parse --is-inside-work-tree`. -/
def rev_parse_cmd : List String :=
  ["git", "rev-parse", "--is-inside-work-tree"]

/-- Command run by `get_git_diff`: `git diff --cached`. -/
def diff_cached_cmd : List String :=
  ["git", "diff", "--cached"]

/-- Command run by `get_staged_files`: `git diff --name-only --cached`. -/
def name_only_cmd : List String :=
  ["git", "diff", "--name-only", "--cached"]

/-- Command run by `get_current_branch`: `git rev-parse --abbrev-ref HEAD`. -/
def branch_cmd : List String :=
  ["git", "rev-parse", "--abbrev-ref", "HEAD"]

/-- First command run by `get_branch_commits`: `git merge-base master HEAD`. -/
def merge_base_cmd : List String :=
  ["git", "merge-base", "master", "HEAD"]

/-- Second command run by `get_branch_commits`:
`git log <merge_base>..HEAD --oneline`. -/
def branch_log_cmd (merge_base : String) : List String :=
  ["git", "log", merge_base ++ "..HEAD", "--oneline"]

/-- Command run by `commit_changes`: `git commit -m <message>`. -/
def commit_cmd (message : String) : List String :=
  ["git", "commit", "-m", message]

/-- Embeds `is_git_repository`: `subprocess.run(..., check=True)` raises
`CalledProcessError` on a non-zero exit, which the function catches and
turns into `False`; a zero exit yields `True`.  `FileNotFoundError`
(git executable absent) is not caught and escapes. -/
def is_git_repository (o : RunOutcome) : Except PyExc Bool :=
  match o with
  | .completed 0 _ _ => .ok true
  | .completed (_ + 1) _ _ => .ok false
  | .fileNotFound => .error .fileNotFound

/-- Embeds `get_git_diff`: returns the raw stdout on success;
`CalledProcessError` is caught, printed and turned into `sys.exit(1)`;
`FileNotFoundError` escapes. -/
def get_git_diff (o : RunOutcome) : Except PyExc String :=
  match o with
  | .completed 0 out _ => .ok out
  | .completed (_ + 1) _ _ => .error (.systemExit 1)
  | .fileNotFound => .error .fileNotFound

/-- Embeds the stdout post-processing in `get_staged_files`:
`result.stdout.strip().split("\n")` with falsy (empty) entries
filtered out. -/
def staged_files_of (stdout : String) : List String :=
  (py_split_nl (py_strip stdout)).filter fun f => f != ""

/-- Embeds `get_staged_files`: the processed file list on success;
`CalledProcessError` is caught and turned into `sys.exit(1)`;
`FileNotFoundError` escapes. -/
def get_staged_files (o : RunOutcome) : Except PyExc (List String) :=
  match o with
  | .completed 0 out _ => .ok (staged_files_of out)
  | .completed (_ + 1) _ _ => .error (.systemExit 1)
  | .fileNotFound => .error .fileNotFound

/-- Embeds `get_current_branch`: the stripped stdout on success; a
`CalledProcessError` is caught and degraded to the fixed string
`"unknown-branch"`; `FileNotFoundError` escapes. -/
def get_current_branch (o : RunOutcome) : Except PyExc String :=
  match o with
  | .completed 0 out _ => .ok (py_strip out)
  | .completed (_ + 1) _ _ => .ok "unknown-branch"
  | .fileNotFound => .error .fileNotFound

/-- Embeds `get_branch_commits`: runs `git merge-base master HEAD` and
then `git log <merge_base>..HEAD --oneline` (see `branch_log_cmd`),
returning the stripped log stdout; a `CalledProcessError` from either
command is caught and degraded to a warning plus the empty string;
`FileNotFoundError` escapes. -/
def get_branch_commits (mb lg : RunOutcome) : Except PyExc String :=
  match mb with
  | .fileNotFound => .error .fileNotFound
  | .completed (_ + 1) _ _ => .ok ""
  | .completed 0 _ _ =>
      match lg with
      | .fileNotFound => .error .fileNotFound
      | .completed (_ + 1) _ _ => .ok ""
      | .completed 0 out _ => .ok (py_strip out)

/-- Embeds `stage_all_changes` (`git add -A`); defined in the script but
never invoked from `main`, so it contributes no event to any trace. -/
def stage_all_changes (o : RunOutcome) : Except PyExc Bool :=
  match o with
  | .completed 0 _ _ => .ok true
  | .completed (_ + 1) _ _ => .ok false
  | .fileNotFound => .error .fileNotFound

/-- Embeds `commit_changes`: `True` on a zero exit, `False` (after
printing the captured stderr) on `CalledProcessError`;
`FileNotFoundError` escapes. -/
def commit_changes (o : RunOutcome) : Except PyExc Bool :=
  match o with
  | .completed 0 _ _ => .ok true
  | .completed (_ + 1) _ _ => .ok false
  | .fileNotFound => .error .fileNotFound

/-- The constant `max_diff_length` in `generate_commit_message`. -/
def max_diff_length : Nat := 50000

/-- The marker appended when the diff is truncated. -/
def diff_trunc_marker : String := "\n[Diff truncated due to size...]"

/-- Embeds the diff truncation in `generate_commit_message`:
`diff_text[:max_diff_length] + "\n[Diff truncated due to size...]"`
when `len(diff_text) > max_diff_length`, the unchanged text otherwise. -/
def truncate_diff (diff_text : String) : String :=
  if max_diff_length < diff_text.length then
    diff_text.take max_diff_length ++ diff_trunc_marker
  else diff_text

/-- Embeds the `branch_context` assembly in `generate_commit_message`:
the branch line (the `branch_context` initial value in the source),
plus the commit-history section appended when `branch_commits` is
truthy (non-empty).  The history text is inserted as-is. -/
def branch_context_of (branch_name branch_commits : String) : String :=
  if branch_commits = "" then "Current branch: " ++ branch_name ++ "\n"
  else ("Current branch: " ++ branch_name ++ "\n") ++
    ("Commit history on this branch:\n" ++ (branch_commits ++ "\n"))

/-- The fixed guideline block of the prompt f-string (lines between the
diff section and the closing instruction), transcribed verbatim. -/
def commit_guidelines : String :=
  "Based on the changes and branch context, generate a concise, one-line commit message following these guidelines:\n\n" ++
  "1.  **Prioritize inferring the overall intent** of the changes from the diff and branch context. If the intent is clear, use it to describe the \"why\" or \"what\" at a higher level.\n" ++
  "2.  If intent isn\x27t obvious, **describe the most significant concrete change**, referencing specific symbols, function names, or key entities modified.\n" ++
  "3.  **Start with an imperative verb** describing the action (e.g., \"Add\", \"Remove\", \"Correct\", \"Implement\", \"Simplify\").\n" ++
  "    * Describe the change directly. For example, instead of \"Update `User` to support `last_login`\", write \"Support `last_login` in `User` model\".\n" ++
  "    * Avoid generic leading words like \"Update\", \"Refactor\", or \"Enhance\" unless they specifically describe the primary action in a way that\x27s more descriptive than the alternative (e.g. \"Refactor `complex_function` for clarity\").\n" ++
  "4.  **Enclose all code-specific terms** (like function/method names, variable names, class names, file names) in backticks (e.g., \\`my\\_function\\`, \\`UserService\\`).\n" ++
  "5.  **Strive for brevity while ensuring the message clearly communicates the core change.** \n" ++
  "6.  **Aim for a single, impactful line.** While there\x27s no strict character limit, the message should not become a paragraph.\n" ++
  "7.  If multiple distinct changes are present, **focus the message on the primary or most impactful change.**\n" ++
  "8.  **Exclude issue tracker numbers, ticket references, or URLs** from the commit message itself.\n"

/-- Embeds the prompt f-string of `generate_commit_message`, with the
three interpolated values as arguments. -/
def prompt_of (branch_context diff_text user_comments : String) : String :=
  "\n<context>\n" ++ branch_context ++ "\n</context>\n\n<diff>\n" ++ diff_text ++
  "\n</diff>\n\n" ++ commit_guidelines ++
  "\n\nOnly write the commit message, nothing else.\n\n<user_comments>\n" ++
  user_comments ++ "\n</user_comments>\n"

/-- The system-role message sent with every request. -/
def system_message : String :=
  "You are an experienced developer. Having just written some code, you are now committing that code to git."

/-- Embeds `generate_commit_message`.  `api_key` is the value of
`os.environ.get("OPENAI_API_KEY")` (`none` when unset); Python
falsiness of that value (`None` or the empty string) triggers
`sys.exit(1)` before the OpenAI client is constructed and before any
request.  Otherwise the diff is truncated, the context and prompt are
assembled, and the single request is issued (the recorded
`networkCall` event); `api_response` is the response content on
success (returned stripped) or `none` when the call raised, in which
case the exception is caught, printed, and `None` is returned. -/
def generate_commit_message (api_key : Option String)
    (diff_text branch_name branch_commits user_comments : String)
    (api_response : Option String) :
    Except PyExc (Option String) × List Event :=
  if api_key = none ∨ api_key = some "" then (.error (.systemExit 1), [])
  else
    let diff_text := truncate_diff diff_text
    let branch_context := branch_context_of branch_name branch_commits
    let prompt := prompt_of branch_context diff_text user_comments
    match api_response with
    | some content => (.ok (some (py_strip content)), [.networkCall system_message prompt])
    | none => (.ok none, [.networkCall system_message prompt])

/-- The fixed fallback used by `main` when no message was generated. -/
def fallback_message : String := "Update code based on recent changes"

/-- The command-line arguments of the generator: the optional positional
`comments` (default `""`) and the `--dry-run` flag. -/
structure GenArgs where
  comments : String
  dryRun : Bool

/-- Outcomes of the external interactions of one generator run, in the
order `main` performs them: the six git queries, the credential
environment variable, the API response (`none` models the request
raising), and the `git commit` outcome. -/
structure GenWorld where
  revParse : RunOutcome
  nameOnly : RunOutcome
  diffCached : RunOutcome
  branchRev : RunOutcome
  mergeBase : RunOutcome
  logRange : RunOutcome
  apiKey : Option String
  apiResponse : Option String
  commitOutcome : RunOutcome

/-- Embeds `main()` of `git_commit_message_generator.py`: probe the
repository, stop with exit 0 when nothing is staged or the stripped
diff is empty, collect branch name and history, generate the message,
fall back to `fallback_message` when the result is falsy (`None` or
empty), stop before committing in dry-run mode, and otherwise commit,
exiting 1 when the commit fails. -/
def gmain (args : GenArgs) (w : GenWorld) : MainResult × List Event :=
  match is_git_repository w.revParse with
  | .error e => (propagate e, [])
  | .ok false => (.exit 1, [])
  | .ok true =>
  match get_staged_files w.nameOnly with
  | .error e => (propagate e, [])
  | .ok staged_files =>
  if staged_files = [] then (.exit 0, []) else
  match get_git_diff w.diffCached with
  | .error e => (propagate e, [])
  | .ok diff =>
  if py_strip diff = "" then (.exit 0, []) else
  match get_current_branch w.branchRev with
  | .error e => (propagate e, [])
  | .ok branch_name =>
  match get_branch_commits w.mergeBase w.logRange with
  | .error e => (propagate e, [])
  | .ok branch_commits =>
  match generate_commit_message w.apiKey diff branch_name branch_commits
      args.comments w.apiResponse with
  | (.error e, tr) => (propagate e, tr)
  | (.ok result, tr) =>
  let commit_message :=
    match result with
    | none => fallback_message
    | some m => if m = "" then fallback_message else m
  if args.dryRun then (.exit 0, tr) else
  match commit_changes w.commitOutcome with
  | .error e => (propagate e, tr ++ [.commitCall commit_message])
  | .ok true => (.exit 0, tr ++ [.commitCall commit_message])
  | .ok false => (.exit 1, tr ++ [.commitCall commit_message])

/-! ## String helpers -/

/-- String length distributes over append. -/
theorem string_length_append (s t : String) : (s ++ t).length = s.length + t.length := by
  rcases s with ⟨a⟩; rcases t with ⟨b⟩
  exact List.length_append a b

/-- Length of a string built from an explicit character list. -/
theorem string_length_mk (l : List Char) : (⟨l⟩ : String).length = l.length := rfl

/-! ## C5: exact shape of the diff truncation -/

/-- Shared bound: whatever the input, the truncated diff never exceeds
the cap plus the marker length. -/
theorem truncate_diff_length_le (d : String) :
    (truncate_diff d).length ≤ max_diff_length + diff_trunc_marker.length := by
  unfold truncate_diff
  split
  · rename_i h
    rw [string_length_append, String.take_eq, string_length_mk, List.length_take,
      String.length_data]
    omega
  · rename_i h
    omega

/-- C5: a diff longer than the 50000-character cap is truncated to its
first 50000 characters exactly, with the fixed marker appended, so the
result has length exactly (and hence at most) 50000 plus the marker
length; a diff at or under the cap is passed through unchanged. -/
theorem diff_truncation_exact (d : String) :
    (max_diff_length < d.length →
      truncate_diff d = d.take max_diff_length ++ diff_trunc_marker ∧
      (truncate_diff d).take max_diff_length = d.take max_diff_length ∧
      (truncate_diff d).length = max_diff_length + diff_trunc_marker.length) ∧
    (d.length ≤ max_diff_length → truncate_diff d = d) ∧
    (truncate_diff d).length ≤ max_diff_length + diff_trunc_marker.length := by
  refine ⟨?_, ?_, truncate_diff_length_le d⟩
  · intro h
    have heq : truncate_diff d = d.take max_diff_length ++ diff_trunc_marker := by
      unfold truncate_diff
      rw [if_pos h]
    have hlen : (d.take max_diff_length).data.length = max_diff_length := by
      rw [String.data_take, List.length_take, String.length_data]
      omega
    refine ⟨heq, ?_, ?_⟩
    · apply String.ext
      rw [heq, String.data_take, String.data_append, String.data_take]
      exact List.take_left'
        (by rw [List.length_take, String.length_data]; omega)
    · rw [heq, string_length_append, String.take_eq, string_length_mk,
        List.length_take, String.length_data]
      omega
  · intro h
    unfold truncate_diff
    rw [if_neg (Nat.not_lt.mpr h)]

/-- A concrete 50001-character diff for the C5 witness. -/
def big_diff : String := ⟨List.replicate 50001 'a'⟩

/-- Length of the concrete oversized diff. -/
theorem big_diff_length : big_diff.length = 50001 := by
  have h : big_diff.length = (List.replicate 50001 'a').length := rfl
  rw [h, List.length_replicate]

/-- Witness for C5 at the concrete 50001-character diff. -/
theorem diff_truncation_exact_witness :
    truncate_diff big_diff = big_diff.take max_diff_length ++ diff_trunc_marker ∧
    (truncate_diff big_diff).length = max_diff_length + diff_trunc_marker.length := by
  have h := (diff_truncation_exact big_diff).1
    (by rw [big_diff_length]; decide)
  exact ⟨h.1, h.2.2⟩

/-! ## C4: the diff is capped, the commit history is not -/

/-- A concrete commit-history text longer than any documented cap. -/
def long_history : String := ⟨List.replicate 50033 'a'⟩

/-- Length of the concrete oversized history. -/
theorem long_history_length : long_history.length = 50033 := by
  have h : long_history.length = (List.replicate 50033 'a').length := rfl
  rw [h, List.length_replicate]

/-- The concrete oversized history is truthy (non-empty). -/
theorem long_history_ne_empty : long_history ≠ "" := by
  intro h
  have h2 : long_history.length = 0 := by rw [h]; rfl
  rw [long_history_length] at h2
  exact absurd h2 (by decide)

/-- Helper: the assembled prompt is at least as long as the branch
context embedded in it. -/
theorem context_le_prompt_length (bc d u : String) :
    bc.length ≤ (prompt_of bc d u).length := by
  unfold prompt_of
  repeat rw [string_length_append]
  omega

/-- C4 counterexample: a commit-history text of 50033 characters is
placed into the branch context, and from there into the prompt
document, with no truncation: both exceed the only documented cap
(50000 characters plus the marker length).  The history section,
unlike the diff, is never capped. -/
theorem history_never_truncated :
    max_diff_length + diff_trunc_marker.length <
      (branch_context_of "main" long_history).length ∧
    max_diff_length + diff_trunc_marker.length <
      (prompt_of (branch_context_of "main" long_history) "" "").length := by
  have hbc : max_diff_length + diff_trunc_marker.length <
      (branch_context_of "main" long_history).length := by
    unfold branch_context_of
    rw [if_neg long_history_ne_empty]
    repeat rw [string_length_append]
    rw [long_history_length]
    rw [show ("Current branch: " : String).length = 16 from rfl]
    rw [show ("main" : String).length = 4 from rfl]
    rw [show ("\n" : String).length = 1 from rfl]
    rw [show ("Commit history on this branch:\n" : String).length = 31 from rfl]
    rw [show diff_trunc_marker.length = 32 from rfl]
    rw [show max_diff_length = 50000 from rfl]
    omega
  exact ⟨hbc, lt_of_lt_of_le hbc (context_le_prompt_length _ _ _)⟩

/-- C4 amended: only the diff text is capped (at 50000 characters plus
the marker); the commit-history text is embedded in the branch context
verbatim, without any cap or truncation marker. -/
theorem diff_capped_history_verbatim (bn bc d : String) (h : bc ≠ "") :
    (truncate_diff d).length ≤ max_diff_length + diff_trunc_marker.length ∧
    branch_context_of bn bc =
      ("Current branch: " ++ bn ++ "\n") ++
        ("Commit history on this branch:\n" ++ (bc ++ "\n")) := by
  refine ⟨truncate_diff_length_le d, ?_⟩
  unfold branch_context_of
  rw [if_neg h]

/-- Witness for the amended C4 at concrete inputs. -/
theorem diff_capped_history_verbatim_witness :
    (truncate_diff "").length ≤ max_diff_length + diff_trunc_marker.length ∧
    branch_context_of "main" "abc5678 Add feature" =
      ("Current branch: " ++ "main" ++ "\n") ++
        ("Commit history on this branch:\n" ++ ("abc5678 Add feature" ++ "\n")) :=
  diff_capped_history_verbatim "main" "abc5678 Add feature" "" (by decide)

/-! ## C6: nothing staged is an informational no-op -/

/-- C6: when the staged-file query returns an empty (or whitespace-only)
listing, the generator exits 0 with an empty event trace: the
completion client is never invoked (no `networkCall`) and no mutating
VCS operation (`commitCall`) is performed. -/
theorem no_staged_files_exits_zero_silently (args : GenArgs) (w : GenWorld)
    (ro re so se : String)
    (hrepo : w.revParse = .completed 0 ro re)
    (hstaged : w.nameOnly = .completed 0 so se)
    (hempty : staged_files_of so = []) :
    gmain args w = (.exit 0, []) := by
  simp [gmain, is_git_repository, get_staged_files, hrepo, hstaged, hempty]

/-- A world whose staged-file listing is empty; every later interaction
is left unreachable (`fileNotFound` / `none`). -/
def nothing_staged_world : GenWorld :=
  ⟨.completed 0 "true" "", .completed 0 "" "", .fileNotFound, .fileNotFound,
    .fileNotFound, .fileNotFound, none, none, .fileNotFound⟩

/-- Witness for C6 at the concrete empty-listing world. -/
theorem no_staged_files_exits_zero_silently_witness :
    gmain ⟨"", false⟩ nothing_staged_world = (.exit 0, []) :=
  no_staged_files_exits_zero_silently ⟨"", false⟩ nothing_staged_world
    "true" "" "" "" rfl rfl (by decide)

/-! ## C7: missing credential fails before any network attempt -/

/-- C7: when `OPENAI_API_KEY` is unset or empty, `generate_commit_message`
exits via `sys.exit(1)` with an empty event trace — the check precedes
the client construction and no request (`networkCall`) is ever made. -/
theorem missing_api_key_fails_before_network (api_key : Option String)
    (d bn bc uc : String) (resp : Option String)
    (h : api_key = none ∨ api_key = some "") :
    generate_commit_message api_key d bn bc uc resp =
      (.error (.systemExit 1), []) := by
  unfold generate_commit_message
  rw [if_pos h]

/-- Witness for C7 with the credential absent. -/
theorem missing_api_key_fails_before_network_witness :
    generate_commit_message none "+x" "main" "" "" (some "msg") =
      (.error (.systemExit 1), []) :=
  missing_api_key_fails_before_network none "+x" "main" "" "" (some "msg")
    (Or.inl rfl)

/-! ## C8: the repository prober is not total -/

/-- C8 counterexample: when the git executable is absent
(`FileNotFoundError`), `is_git_repository` does not return `False`; the
exception escapes uncaught. -/
theorem prober_propagates_missing_git :
    is_git_repository .fileNotFound = .error .fileNotFound ∧
    is_git_repository .fileNotFound ≠ .ok false :=
  ⟨rfl, fun h => Except.noConfusion h⟩

/-- C8 amended: for every completed status query the prober returns a
boolean — `True` exactly on exit code 0, `False` on any non-zero exit
(the caught `CalledProcessError`) — while an I/O failure such as a
missing git executable propagates as an uncaught exception. -/
theorem prober_false_only_on_nonzero_exit (rc : Nat) (out err : String) :
    is_git_repository (.completed rc out err) = .ok (rc == 0) ∧
    is_git_repository .fileNotFound = .error .fileNotFound := by
  refine ⟨?_, rfl⟩
  cases rc <;> rfl

/-! ## C9: the commit-history read is unbounded -/

/-- A log stdout with 26 oneline entries. -/
def log_output_26 : String :=
  "a\na\na\na\na\na" ++ "\na\na\na\na\na" ++ "\na\na\na\na\na" ++
    "\na\na\na\na\na" ++ "\na\na\na\na\na"

/-- C9 counterexample: a log stdout of 26 subject lines is returned in
full — 26 lines, exceeding the claimed bound of 25.  The log command
applies no count limit. -/
theorem history_count_unbounded :
    get_branch_commits (.completed 0 "base" "") (.completed 0 log_output_26 "") =
      .ok log_output_26 ∧
    25 < (py_split_nl log_output_26).length := by
  constructor
  · rfl
  · decide

/-- C9 amended: the history read returns the entire trimmed stdout of
`git log <merge_base>..HEAD --oneline` — no count bound, and the
command carries no filtering flag beyond `--oneline` — while a
`CalledProcessError` from either underlying command degrades to a
warning with an empty result instead of terminating the process. -/
theorem history_is_full_trimmed_log (mbo mbe lo le : String) (n m : Nat)
    (lg : RunOutcome) :
    get_branch_commits (.completed 0 mbo mbe) (.completed 0 lo le) = .ok (py_strip lo) ∧
    get_branch_commits (.completed (n + 1) mbo mbe) lg = .ok "" ∧
    get_branch_commits (.completed 0 mbo mbe) (.completed (m + 1) lo le) = .ok "" ∧
    ∀ arg ∈ branch_log_cmd (py_strip mbo),
      arg = "git" ∨ arg = "log" ∨ arg = py_strip mbo ++ "..HEAD" ∨ arg = "--oneline" := by
  refine ⟨rfl, rfl, rfl, ?_⟩
  intro arg h
  simp only [branch_log_cmd, List.mem_cons, List.not_mem_nil, or_false] at h
  tauto

/-- Witness for the amended C9 at concrete inputs. -/
theorem history_is_full_trimmed_log_witness :
    get_branch_commits (.completed 0 "base" "") (.completed 0 "a\nb" "") =
      .ok (py_strip "a\nb") ∧
    ("--oneline" = "git" ∨ "--oneline" = "log" ∨
      "--oneline" = py_strip "base" ++ "..HEAD" ∨ "--oneline" = "--oneline") := by
  have h := history_is_full_trimmed_log "base" "" "a\nb" "" 0 0 .fileNotFound
  exact ⟨h.1, h.2.2.2 "--oneline" (by decide)⟩

/-! ## Reaching the generation step: helpers -/

/-- The branch-name read always succeeds once a git process ran: a
non-zero exit degrades to `"unknown-branch"` instead of failing. -/
theorem get_current_branch_ok (o : RunOutcome) (h : o ≠ .fileNotFound) :
    ∃ s, get_current_branch o = .ok s := by
  rcases o with ⟨rc, out, err⟩ | _
  · cases rc
    · exact ⟨py_strip out, rfl⟩
    · exact ⟨"unknown-branch", rfl⟩
  · exact absurd rfl h

/-- The history read always succeeds once git processes ran: command
failures degrade to the empty string. -/
theorem get_branch_commits_ok (mb lg : RunOutcome)
    (h1 : mb ≠ .fileNotFound) (h2 : lg ≠ .fileNotFound) :
    ∃ s, get_branch_commits mb lg = .ok s := by
  rcases mb with ⟨rc, out, err⟩ | _
  · cases rc
    · rcases lg with ⟨rc2, out2, err2⟩ | _
      · cases rc2
        · exact ⟨py_strip out2, rfl⟩
        · exact ⟨"", rfl⟩
      · exact absurd rfl h2
    · exact ⟨"", rfl⟩
  · exact absurd rfl h1

/-! ## C2: transport failure falls back to the placeholder commit -/

/-- C2: in a run that reaches the generation step (repository present,
files staged, non-empty diff, credential set, not a dry run), when the
API call raises (`apiResponse = none`) the executor commits with the
fixed placeholder message, and when that commit succeeds the process
exits 0 instead of aborting. -/
theorem api_failure_commits_fallback (args : GenArgs) (w : GenWorld)
    (hrepo : ∃ o e, w.revParse = .completed 0 o e)
    (hstaged : ∃ o e, w.nameOnly = .completed 0 o e ∧ staged_files_of o ≠ [])
    (hdiff : ∃ o e, w.diffCached = .completed 0 o e ∧ py_strip o ≠ "")
    (hbranch : w.branchRev ≠ .fileNotFound)
    (hmb : w.mergeBase ≠ .fileNotFound)
    (hlog : w.logRange ≠ .fileNotFound)
    (hkey : ∃ k, w.apiKey = some k ∧ k ≠ "")
    (hresp : w.apiResponse = none)
    (hdry : args.dryRun = false)
    (hcommit : ∃ o e, w.commitOutcome = .completed 0 o e) :
    (gmain args w).1 = .exit 0 ∧
    Event.commitCall "Update code based on recent changes" ∈ (gmain args w).2 := by
  obtain ⟨ro, re, hro⟩ := hrepo
  obtain ⟨so, se, hso, hsne⟩ := hstaged
  obtain ⟨dfo, dfe, hdo, hdne⟩ := hdiff
  obtain ⟨bs, hbs⟩ := get_current_branch_ok w.branchRev hbranch
  obtain ⟨cs, hcs⟩ := get_branch_commits_ok w.mergeBase w.logRange hmb hlog
  obtain ⟨k, hk, hkne⟩ := hkey
  obtain ⟨co, ce, hco⟩ := hcommit
  have hg : gmain args w = (.exit 0,
      [.networkCall system_message
        (prompt_of (branch_context_of bs cs) (truncate_diff dfo) args.comments),
       .commitCall fallback_message]) := by
    simp [gmain, hro, hso, hdo, hbs, hcs, hk, hco, hresp, hdry, hsne, hdne, hkne,
      is_git_repository, get_staged_files, get_git_diff, commit_changes,
      generate_commit_message]
  rw [hg]
  exact ⟨rfl, by simp [fallback_message]⟩

/-- A run in which every git call succeeds but the API request raises. -/
def api_down_world : GenWorld :=
  ⟨.completed 0 "true" "", .completed 0 "a.py" "", .completed 0 "+x = 1" "",
    .completed 0 "main" "", .completed 0 "abc1234" "", .completed 0 "" "",
    some "sk-test", none, .completed 0 "" ""⟩

/-- Witness for C2 at the concrete failed-request world. -/
theorem api_failure_commits_fallback_witness :
    (gmain ⟨"", false⟩ api_down_world).1 = .exit 0 ∧
    Event.commitCall "Update code based on recent changes" ∈
      (gmain ⟨"", false⟩ api_down_world).2 :=
  api_failure_commits_fallback ⟨"", false⟩ api_down_world
    ⟨"true", "", rfl⟩ ⟨"a.py", "", rfl, by decide⟩ ⟨"+x = 1", "", rfl, by decide⟩
    (by decide) (by decide) (by decide) ⟨"sk-test", rfl, by decide⟩ rfl rfl
    ⟨"", "", rfl⟩

/-! ## C10: a whitespace-only response also falls back -/

/-- C10: when the API responds successfully but with whitespace-only
content, the stripped result is the empty string, which is falsy, so
the executor commits the fixed placeholder message — exactly the
transport-failure behaviour — and exits 0 when the commit succeeds. -/
theorem whitespace_response_commits_fallback (args : GenArgs) (w : GenWorld)
    (content : String)
    (hrepo : ∃ o e, w.revParse = .completed 0 o e)
    (hstaged : ∃ o e, w.nameOnly = .completed 0 o e ∧ staged_files_of o ≠ [])
    (hdiff : ∃ o e, w.diffCached = .completed 0 o e ∧ py_strip o ≠ "")
    (hbranch : w.branchRev ≠ .fileNotFound)
    (hmb : w.mergeBase ≠ .fileNotFound)
    (hlog : w.logRange ≠ .fileNotFound)
    (hkey : ∃ k, w.apiKey = some k ∧ k ≠ "")
    (hresp : w.apiResponse = some content)
    (hws : py_strip content = "")
    (hdry : args.dryRun = false)
    (hcommit : ∃ o e, w.commitOutcome = .completed 0 o e) :
    (gmain args w).1 = .exit 0 ∧
    Event.commitCall "Update code based on recent changes" ∈ (gmain args w).2 := by
  obtain ⟨ro, re, hro⟩ := hrepo
  obtain ⟨so, se, hso, hsne⟩ := hstaged
  obtain ⟨dfo, dfe, hdo, hdne⟩ := hdiff
  obtain ⟨bs, hbs⟩ := get_current_branch_ok w.branchRev hbranch
  obtain ⟨cs, hcs⟩ := get_branch_commits_ok w.mergeBase w.logRange hmb hlog
  obtain ⟨k, hk, hkne⟩ := hkey
  obtain ⟨co, ce, hco⟩ := hcommit
  have hg : gmain args w = (.exit 0,
      [.networkCall system_message
        (prompt_of (branch_context_of bs cs) (truncate_diff dfo) args.comments),
       .commitCall fallback_message]) := by
    simp [gmain, hro, hso, hdo, hbs, hcs, hk, hco, hresp, hws, hdry, hsne, hdne,
      hkne, is_git_repository, get_staged_files, get_git_diff, commit_changes,
      generate_commit_message]
  rw [hg]
  exact ⟨rfl, by simp [fallback_message]⟩

/-- A run in which the API responds with whitespace-only content. -/
def whitespace_world : GenWorld :=
  ⟨.completed 0 "true" "", .completed 0 "a.py" "", .completed 0 "+x = 1" "",
    .completed 0 "main" "", .completed 0 "abc1234" "", .completed 0 "" "",
    some "sk-test", some "  \n ", .completed 0 "" ""⟩

/-- Witness for C10 at the concrete whitespace-response world. -/
theorem whitespace_response_commits_fallback_witness :
    (gmain ⟨"", false⟩ whitespace_world).1 = .exit 0 ∧
    Event.commitCall "Update code based on recent changes" ∈
      (gmain ⟨"", false⟩ whitespace_world).2 :=
  whitespace_response_commits_fallback ⟨"", false⟩ whitespace_world "  \n "
    ⟨"true", "", rfl⟩ ⟨"a.py", "", rfl, by decide⟩ ⟨"+x = 1", "", rfl, by decide⟩
    (by decide) (by decide) (by decide) ⟨"sk-test", rfl, by decide⟩ rfl (by decide)
    rfl ⟨"", "", rfl⟩

/-! ## C1: there is no insufficient-context sentinel -/

/-- A run whose API response is a sentinel-style refusal string. -/
def sentinel_world : GenWorld :=
  ⟨.completed 0 "true" "", .completed 0 "a.py" "", .completed 0 "+x = 1" "",
    .completed 0 "feature-x" "", .completed 0 "abc1234" "", .completed 0 "" "",
    some "sk-test", some "Insufficient context to generate a commit message.",
    .completed 0 "" ""⟩

/-- C1 counterexample: the script designates no insufficient-context
sentinel (the prompt never instructs the model to emit one and `main`
never inspects the message content), so even when the generation call
returns a sentinel-style refusal string the executor still invokes
`git commit` with that exact string as the message and the process
exits 0 — no string value makes the run skip the commit. -/
theorem sentinel_response_is_committed_anyway :
    (gmain ⟨"", false⟩ sentinel_world).1 = .exit 0 ∧
    Event.commitCall "Insufficient context to generate a commit message." ∈
      (gmain ⟨"", false⟩ sentinel_world).2 := by
  constructor
  · rfl
  · decide

/-- C1 amended: the generator defines no sentinel at all — in every
non-dry run that reaches the generation step, whatever non-falsy string
the generation call yields (a would-be sentinel included) is committed
verbatim after stripping, and the process exits 0 when the commit
succeeds; the exit status never depends on the content of a successful
response. -/
theorem any_nonempty_response_committed_verbatim (args : GenArgs) (w : GenWorld)
    (content : String)
    (hrepo : ∃ o e, w.revParse = .completed 0 o e)
    (hstaged : ∃ o e, w.nameOnly = .completed 0 o e ∧ staged_files_of o ≠ [])
    (hdiff : ∃ o e, w.diffCached = .completed 0 o e ∧ py_strip o ≠ "")
    (hbranch : w.branchRev ≠ .fileNotFound)
    (hmb : w.mergeBase ≠ .fileNotFound)
    (hlog : w.logRange ≠ .fileNotFound)
    (hkey : ∃ k, w.apiKey = some k ∧ k ≠ "")
    (hresp : w.apiResponse = some content)
    (hcne : py_strip content ≠ "")
    (hdry : args.dryRun = false)
    (hcommit : ∃ o e, w.commitOutcome = .completed 0 o e) :
    (gmain args w).1 = .exit 0 ∧
    Event.commitCall (py_strip content) ∈ (gmain args w).2 := by
  obtain ⟨ro, re, hro⟩ := hrepo
  obtain ⟨so, se, hso, hsne⟩ := hstaged
  obtain ⟨dfo, dfe, hdo, hdne⟩ := hdiff
  obtain ⟨bs, hbs⟩ := get_current_branch_ok w.branchRev hbranch
  obtain ⟨cs, hcs⟩ := get_branch_commits_ok w.mergeBase w.logRange hmb hlog
  obtain ⟨k, hk, hkne⟩ := hkey
  obtain ⟨co, ce, hco⟩ := hcommit
  have hg : gmain args w = (.exit 0,
      [.networkCall system_message
        (prompt_of (branch_context_of bs cs) (truncate_diff dfo) args.comments),
       .commitCall (py_strip content)]) := by
    simp [gmain, hro, hso, hdo, hbs, hcs, hk, hco, hresp, hdry, hsne, hdne,
      hkne, hcne, is_git_repository, get_staged_files, get_git_diff,
      commit_changes, generate_commit_message]
  rw [hg]
  exact ⟨rfl, by simp⟩

/-- Witness for the amended C1 at the concrete sentinel-style world. -/
theorem any_nonempty_response_committed_verbatim_witness :
    (gmain ⟨"", false⟩ sentinel_world).1 = .exit 0 ∧
    Event.commitCall
        (py_strip "Insufficient context to generate a commit message.") ∈
      (gmain ⟨"", false⟩ sentinel_world).2 :=
  any_nonempty_response_committed_verbatim ⟨"", false⟩ sentinel_world
    "Insufficient context to generate a commit message."
    ⟨"true", "", rfl⟩ ⟨"a.py", "", rfl, by decide⟩ ⟨"+x = 1", "", rfl, by decide⟩
    (by decide) (by decide) (by decide) ⟨"sk-test", rfl, by decide⟩ rfl
    (by decide) rfl ⟨"", "", rfl⟩

end Scripts
